import Mathlib

/-
Verification of the assertion-evaluation engine of the ATK/AT-SPI2
Accessible Technology Test Adapter (ATTA).

The development shallowly embeds the Python sources under
src/wai-aria/tools/ :
  * atta_assertion.py  (AttaAssertion._get_result)
  * atta-atk-atspi.py  (Assertion._get_result, Assertion.get_test_class,
                        EventAssertion, AtkAtspiAtta.run_tests,
                        AtkAtspiAtta._on_test_event)
  * atta_base.py       (Atta.type_to_string, Atta.value_to_string,
                        Atta.start_listen, Atta.stop_listen, Atta.is_ready,
                        Atta.run_tests)
  * atk_atta.py        (AtkAtta.get_client_side_method,
                        AtkAtta.value_to_string for platform constants,
                        AtkAtta.string_to_value, AtkAtta._on_test_event)

Python runtime values exchanged between the harness and the engine are
modelled by the inductive type PyVal.  Operations that can raise a Python
exception return Option (Option.none models the exception propagating).
Platform objects (live AT-SPI2 accessibles) are modelled by the
`accessible` constructor carrying their attribute dictionary; the native
library calls themselves are outside the embedding and appear as
parameters where a method consults them.
-/

/-- Model of the Python runtime values handled by the ATTA engine:
JSON data received from the harness and the values the platform
resolvers hand to the comparison code.  `float` carries the string
representation (no float arithmetic occurs in the engine), `accessible`
carries the AT-SPI2 object attributes used by `_get_id`, and `obj` is any
other platform object (its Python type name and its str()). -/
inductive PyVal where
  | none
  | bool (b : Bool)
  | int (n : Int)
  | float (r : String)
  | str (s : String)
  | list (l : List PyVal)
  | tuple (l : List PyVal)
  | set (l : List PyVal)
  | range (lo hi : Int)
  | dict (l : List (PyVal × PyVal))
  | accessible (attrs : List (String × String))
  | obj (tyname r : String)

mutual

/-- Structural equality on `PyVal` (see `pyEqB` for the reading as
Python `==`). -/
def pyBeq : PyVal → PyVal → Bool
  | .none, .none => true
  | .bool a, .bool b => a == b
  | .int a, .int b => a == b
  | .float a, .float b => a == b
  | .str a, .str b => a == b
  | .list a, .list b => pyBeqList a b
  | .tuple a, .tuple b => pyBeqList a b
  | .set a, .set b => pyBeqList a b
  | .range a b, .range c d => a == c && b == d
  | .dict a, .dict b => pyBeqPairs a b
  | .accessible a, .accessible b => a == b
  | .obj t r, .obj u s => t == u && r == s
  | _, _ => false

/-- Elementwise `pyBeq` on lists. -/
def pyBeqList : List PyVal → List PyVal → Bool
  | [], [] => true
  | a :: as, b :: bs => pyBeq a b && pyBeqList as bs
  | _, _ => false

/-- Pairwise `pyBeq` on key/value lists. -/
def pyBeqPairs : List (PyVal × PyVal) → List (PyVal × PyVal) → Bool
  | [], [] => true
  | (k, v) :: as, (k2, v2) :: bs => pyBeq k k2 && pyBeq v v2 && pyBeqPairs as bs
  | _, _ => false

end

instance : BEq PyVal := ⟨pyBeq⟩

/-- `charsStartsWith pat s` : `pat` is a prefix of `s` (utility for the
Python string operators `in` and `str.replace`). -/
def charsStartsWith : List Char → List Char → Bool
  | [], _ => true
  | _ :: _, [] => false
  | a :: as, b :: bs => a == b && charsStartsWith as bs

/-- `charsContains s pat` : `pat` occurs as a contiguous substring of `s`
(Python `pat in s` for strings). -/
def charsContains : List Char → List Char → Bool
  | [], pat => pat.isEmpty
  | c :: rest, pat => charsStartsWith pat (c :: rest) || charsContains rest pat

/-- Fuel-indexed worker for `charsReplace`; the fuel is the length of the
subject so the kernel can evaluate it (each step consumes one character). -/
def charsReplaceAux (pat rep : List Char) : Nat → List Char → List Char
  | 0, s => s
  | _ + 1, [] => []
  | fuel + 1, c :: rest =>
    if !pat.isEmpty && charsStartsWith pat (c :: rest) then
      rep ++ charsReplaceAux pat rep fuel (List.drop (pat.length - 1) rest)
    else
      c :: charsReplaceAux pat rep fuel rest

/-- Python `s.replace(pat, rep)`: replace every non-overlapping occurrence
of `pat` in `s` by `rep`, scanning left to right. -/
def pyStrReplace (s pat rep : String) : String :=
  String.mk (charsReplaceAux pat.toList rep.toList s.toList.length s.toList)

/-- Python `sub in s` for strings: substring test. -/
def strContains (s sub : String) : Bool :=
  charsContains s.toList sub.toList

/-- Python `s.split("_")[0]` (only the first field is ever used by the
source, in `AtkAtta.string_to_value`). -/
def firstSegment (s : String) : String :=
  String.mk (s.toList.takeWhile (fun c => c != '_'))

/-- Python truthiness (`bool(v)`) for the values of the model.  For
`float` (carried as its string representation) the only falsy
representation is "0.0"; the engine never tests the truthiness of a
float. -/
def pyTruthy : PyVal → Bool
  | .none => false
  | .bool b => b
  | .int n => n != 0
  | .float r => r != "0.0"
  | .str s => s != ""
  | .list l => !l.isEmpty
  | .tuple l => !l.isEmpty
  | .set l => !l.isEmpty
  | .range lo hi => lo < hi
  | .dict l => !l.isEmpty
  | .accessible _ => true
  | .obj _ _ => true

/-- Python `==` on the modelled values.  Structural equality: the
values compared by the engine are canonical strings and containers of
strings produced by `value_to_string` and JSON data from the harness, so
Python's cross-type numeric equalities (True == 1, 1 == 1.0) and
order-insensitive set/dict equality do not arise. -/
def pyEqB (a b : PyVal) : Bool := a == b

/-- Python `x in c`.  `Option.none` models the TypeError Python raises
when `c` does not support the membership protocol (or when `c` is a
string and `x` is not). -/
def pyIn (x c : PyVal) : Option Bool :=
  match c with
  | .str s =>
    match x with
    | .str sub => some (strContains s sub)
    | _ => Option.none
  | .list l => some (l.any (fun e => pyEqB e x))
  | .tuple l => some (l.any (fun e => pyEqB e x))
  | .set l => some (l.any (fun e => pyEqB e x))
  | .dict l => some (l.any (fun kv => pyEqB kv.1 x))
  | .range lo hi =>
    match x with
    | .int n => some (decide (lo ≤ n) && decide (n < hi))
    | .bool b => some (decide (lo ≤ (if b then (1 : Int) else 0)) && decide ((if b then (1 : Int) else 0) < hi))
    | _ => some false
  | _ => Option.none

/-- Python `int(v)` as used on the event `detail1`/`detail2` expectations;
`Option.none` models the ValueError/TypeError raised on a value that is
not an integer, a boolean or a string of digits. -/
def digitsToNat : List Char → Option Nat
  | [] => Option.none
  | cs =>
    if cs.all (fun c => c.isDigit) then
      some (cs.foldl (fun a c => a * 10 + (c.toNat - 48)) 0)
    else
      Option.none

/-- Python `int(v)` (see `digitsToNat`). -/
def pyInt : PyVal → Option Int
  | .int n => some n
  | .bool b => some (if b then 1 else 0)
  | .str s =>
    match s.toList with
    | '-' :: rest => (digitsToNat rest).map (fun n => -(n : Int))
    | l => (digitsToNat l).map (fun n => (n : Int))
  | _ => Option.none

/-- Python `a or b` (value-returning disjunction, used by `_get_id`). -/
def pyOrVal (a b : PyVal) : PyVal :=
  if pyTruthy a then a else b

/-- Python `str(v)` for the values that fall through to the final
`return str(value)` of `Atta.value_to_string` (none of their string
forms is ever compared by the engine except "None"). -/
def pyStrAtom : PyVal → String
  | .none => "None"
  | .accessible _ => "<Atspi.Accessible object>"
  | .obj _ r => r
  | _ => ""

/-- `Atta.type_to_string` (atta_base.py lines 462-479): the type of a
value as a harness-compliant string.  The comparisons `value_type == str`
etc. are on the exact runtime type, so `bool` (a Python subtype of
`int`) is classified before the numeric case. -/
def type_to_string : PyVal → String
  | .str _ => "String"
  | .bool _ => "Boolean"
  | .int _ => "Number"
  | .float _ => "Number"
  | .tuple _ => "List"
  | .list _ => "List"
  | .set _ => "List"
  | .range _ _ => "List"
  | .dict _ => "List"
  | _ => "Undefined"

mutual

/-- `Atta.value_to_string` (atta_base.py lines 481-504): canonical
string/structural representation of a value.  Strings are returned as
is, booleans as `str(value).lower()`, numbers as `str(value)`, containers
elementwise preserving the container type, `range` as `str(range)` (the
string of the `range` class itself, as in the source), dicts pointwise,
and anything else as `str(value)`. -/
def value_to_string : PyVal → PyVal
  | .str s => .str s
  | .bool b => .str (if b then "true" else "false")
  | .int n => .str (toString n)
  | .float r => .str r
  | .tuple l => .tuple (valueListToString l)
  | .list l => .list (valueListToString l)
  | .set l => .set (valueListToString l)
  | .range _ _ => .str "<class 'range'>"
  | .dict l => .dict (valuePairsToString l)
  | v => .str (pyStrAtom v)

/-- `map(self.value_to_string, value)` over a container. -/
def valueListToString : List PyVal → List PyVal
  | [] => []
  | v :: vs => value_to_string v :: valueListToString vs

/-- The dict comprehension of `Atta.value_to_string`. -/
def valuePairsToString : List (PyVal × PyVal) → List (PyVal × PyVal)
  | [] => []
  | (k, v) :: kvs => (value_to_string k, value_to_string v) :: valuePairsToString kvs

end

mutual

/-- Python `repr(v)` (and `str` of a container), used when an assertion
list is interpolated into the "is not a valid assertion" message.
String escaping inside repr is not modelled (harness tokens contain no
quotes). -/
def pyRepr : PyVal → String
  | .none => "None"
  | .bool b => if b then "True" else "False"
  | .int n => toString n
  | .float r => r
  | .str s => "'" ++ s ++ "'"
  | .list l => "[" ++ pyReprSep l ++ "]"
  | .tuple l => "(" ++ pyReprSep l ++ ")"
  | .set l => "\x7b" ++ pyReprSep l ++ "\x7d"
  | .range lo hi => "range(" ++ toString lo ++ ", " ++ toString hi ++ ")"
  | .dict l => "\x7b" ++ pyReprPairsSep l ++ "\x7d"
  | .accessible _ => "<Atspi.Accessible object>"
  | .obj _ r => r

/-- Comma-separated reprs of the elements of a container. -/
def pyReprSep : List PyVal → String
  | [] => ""
  | [v] => pyRepr v
  | v :: vs => pyRepr v ++ ", " ++ pyReprSep vs

/-- Comma-separated `key: value` reprs of a dict. -/
def pyReprPairsSep : List (PyVal × PyVal) → String
  | [] => ""
  | [(k, v)] => pyRepr k ++ ": " ++ pyRepr v
  | (k, v) :: kvs => pyRepr k ++ ": " ++ pyRepr v ++ ", " ++ pyReprPairsSep kvs

end

/-- Python `type(v).__name__`, used by the `isType` branch of
`Assertion._get_result` in atta-atk-atspi.py. -/
def pyTypeName : PyVal → String
  | .none => "NoneType"
  | .bool _ => "bool"
  | .int _ => "int"
  | .float _ => "float"
  | .str _ => "str"
  | .list _ => "list"
  | .tuple _ => "tuple"
  | .set _ => "set"
  | .range _ _ => "range"
  | .dict _ => "dict"
  | .accessible _ => "Accessible"
  | .obj t _ => t

/-- `AttaAssertion._get_result` (atta_assertion.py lines 79-108).  The
assertion object holds the atta it was created with and calls its
`value_to_string`/`type_to_string`, so those two canonicalizers are
parameters (`vts`, `tts`).  `value` is what `self._get_value()` returned;
the result is the final `self._status`, `Option.none` modelling a Python
exception escaping from a comparison. -/
def atta_get_result (vts : PyVal → PyVal) (tts : PyVal → String)
    (expectation : String) (expectedValue value : PyVal) : Option String :=
  let actualValue := if expectation = "isType" then PyVal.str (tts value) else vts value
  let result : Option Bool :=
    if expectation = "is" then some (pyEqB expectedValue actualValue)
    else if expectation = "isNot" then some (!pyEqB expectedValue actualValue)
    else if expectation = "contains" then
      if pyTruthy actualValue then pyIn expectedValue actualValue else some false
    else if expectation = "doesNotContain" then
      if pyTruthy actualValue then (pyIn expectedValue actualValue).map (fun b => !b)
      else some false
    else if expectation = "isAny" then pyIn actualValue expectedValue
    else if expectation = "isType" then some (pyEqB actualValue expectedValue)
    else if expectation = "exists" then some (pyEqB expectedValue actualValue)
    else some false
  result.map (fun r => if r then "PASS" else "FAIL")

/-- `Assertion._get_id` / `_get_object_attribute` (atta-atk-atspi.py):
`attrs.get(name)` on the object's attribute dict, then
`get("id") or get("html-id")`. -/
def attrGet (attrs : List (String × String)) (name : String) : PyVal :=
  match attrs.lookup name with
  | some v => .str v
  | Option.none => PyVal.none

/-- `Assertion._get_id` (atta-atk-atspi.py lines 223-225). -/
def assertion_get_id (attrs : List (String × String)) : PyVal :=
  pyOrVal (attrGet attrs "id") (attrGet attrs "html-id")

/-- `Assertion._value_to_harness_string` (atta-atk-atspi.py lines
277-290): identity for `isType`, `str(value).lower()` for booleans
(checked before numbers because Python `bool` is a subtype of `int`),
`str(value)` for numbers, the element id for accessibles, and the value
itself otherwise. -/
def value_to_harness_string (expectation : String) (v : PyVal) : PyVal :=
  if expectation = "isType" then v
  else
    match v with
    | .bool b => .str (if b then "true" else "false")
    | .int n => .str (toString n)
    | .float r => .str r
    | .accessible attrs => assertion_get_id attrs
    | w => w

/-- `Assertion._get_result` (atta-atk-atspi.py lines 295-323), the
near-duplicate variant of `atta_get_result`.  Here the actual value is
the raw `self._get_value()` result (`actualValue`); no canonicalizer is
applied except in the `exists` branch, which goes through
`_value_to_harness_string`, and the `isType` branch, which compares
`type(actual).__name__`. -/
def atspi_get_result (expectation : String) (expectedValue actualValue : PyVal) :
    Option String :=
  let result : Option Bool :=
    if expectation = "is" then some (pyEqB expectedValue actualValue)
    else if expectation = "isNot" then some (!pyEqB expectedValue actualValue)
    else if expectation = "contains" then
      if pyTruthy actualValue then pyIn expectedValue actualValue else some false
    else if expectation = "doesNotContain" then
      let actual := match actualValue with
        | PyVal.none => PyVal.list []
        | w => w
      (pyIn expectedValue actual).map (fun b => !b)
    else if expectation = "isAny" then pyIn actualValue expectedValue
    else if expectation = "isType" then some (pyEqB (.str (pyTypeName actualValue)) expectedValue)
    else if expectation = "exists" then
      some (pyEqB expectedValue (value_to_harness_string expectation actualValue))
    else some false
  result.map (fun r => if r then "PASS" else "FAIL")

/-- An AT-SPI2 accessibility event as consumed by the ATTA: its type
string, the two integer details, its payload and its source object
(an id standing for the live accessible). -/
structure AtspiEvent where
  type : String
  detail1 : Int
  detail2 : Int
  anyData : PyVal
  source : Nat

/-- Python `d.get(key)` on the expectation dictionary of an event
assertion (`PyVal.none` for an absent key, as in Python). -/
def pyDictGet (d : List (PyVal × PyVal)) (key : String) : PyVal :=
  match d.find? (fun kv => pyEqB kv.1 (.str key)) with
  | some kv => kv.2
  | Option.none => PyVal.none

/-- The matching chain of `EventAssertion.__init__` (atta-atk-atspi.py
lines 459-484, duplicated in atk_atta.py lines 43-71).  `expected` is
the items of `self._expected_value`; the result is
`self._matching_events`, with `Option.none` modelling a Python
exception: the NameError raised because `matches` is only initialized
under the `type` guard (so it is unbound whenever the expectation does
not specify `type`, including at the final `list(matches)`), or a
ValueError from `int(detail1)` / `int(detail2)`.  The int() calls are
modelled strictly, while Python's lazy `filter` would only raise them
once an event reaches that stage of the chain. -/
def event_assertion_matches (expected : List (PyVal × PyVal))
    (events : List AtspiEvent) : Option (List AtspiEvent) := do
  let eType := pyDictGet expected "type"
  let matches0 ←
    match eType with
    | PyVal.none => Option.none
    | t => some (events.filter (fun x => pyEqB (.str x.type) t))
  let matches1 ←
    match pyDictGet expected "detail1" with
    | PyVal.none => some matches0
    | d => (pyInt d).map (fun n => matches0.filter (fun x => x.detail1 == n))
  let matches2 ←
    match pyDictGet expected "detail2" with
    | PyVal.none => some matches1
    | d => (pyInt d).map (fun n => matches1.filter (fun x => x.detail2 == n))
  let matches3 :=
    match pyDictGet expected "any_data" with
    | PyVal.none => matches2
    | a => matches2.filter (fun x => pyEqB x.anyData a)
  some matches3

/-- `EventAssertion._get_result` (atta-atk-atspi.py lines 495-508): the
status is PASS exactly when `self._matching_events` is non-empty;
`Option.none` propagates an exception raised by the matching chain of
`EventAssertion.__init__`. -/
def event_assertion_get_result (expected : List (PyVal × PyVal))
    (events : List AtspiEvent) : Option String :=
  (event_assertion_matches expected events).map
    (fun l => if !l.isEmpty then "PASS" else "FAIL")

/-- The resolver classes of the engine (atta-atk-atspi.py): each value
stands for the Assertion subclass of the same name. -/
inductive TestClass where
  | event
  | property
  | relation
  | result
  | tbd
  deriving DecidableEq

/-- `Assertion.get_test_class` (atta-atk-atspi.py lines 97-112): the
first token of the assertion selects the resolver class;
`PropertyAssertion` resolves by property lookup, `EventAssertion` by
event matching, `RelationAssertion` by relation lookup,
`ResultAssertion` by wrapped native API method invocation and
`DumpInfoAssertion` is the dump-info handler; every other token yields
None. -/
def get_test_class (testClassToken : String) : Option TestClass :=
  if testClassToken = "property" then some .property
  else if testClassToken = "event" then some .event
  else if testClassToken = "relation" then some .relation
  else if testClassToken = "result" then some .result
  else if testClassToken = "TBD" then some .tbd
  else Option.none

/-- A tokenized assertion: the four-token list
`[test class, target string, expectation verb, expected value]` exactly
as `Assertion.__init__` reads it (`assertion[0]` .. `assertion[3]`). -/
structure Assertion4 where
  testClass : String
  testString : String
  expectation : String
  expectedValue : PyVal

/-- The assertion as the Python list it arrived as (used when it is
interpolated into an error message). -/
def assertionPyVal (a : Assertion4) : PyVal :=
  .list [.str a.testClass, .str a.testString, .str a.expectation, a.expectedValue]

/-- The result dict of `AtkAtspiAtta._run_test`. -/
structure RunResult where
  result : String
  message : String
  log : String
  deriving DecidableEq

/-- `AtkAtspiAtta._run_test` (atta-atk-atspi.py lines 750-782): in a dry
run every assertion goes to the dump-info handler; otherwise the test
class is selected by `Assertion.get_test_class`; when it is None the
result is FAIL with the "is not a valid assertion" message and no
assertion object is ever constructed, so no lookup or method invocation
happens — captured by `evalWith` (the construction and run of the
selected resolver on the live object) being consulted only in the
`some` branch. -/
def atspi_run_test (dryRun : Bool) (evalWith : TestClass → Assertion4 → RunResult)
    (a : Assertion4) : RunResult :=
  let tc := if dryRun then some TestClass.tbd else get_test_class a.testClass
  match tc with
  | Option.none =>
    let msg := "ERROR: " ++ pyRepr (assertionPyVal a) ++ " is not a valid assertion"
    { result := "FAIL", message := msg, log := msg }
  | some c => evalWith c a

/-- The exception table of `AtkAtta.get_client_side_method` (atk_atta.py
lines 386-393): "things which are unique or hard to reliably map via
heuristic". -/
def gcsMappings : List (String × String) :=
  [("atk_selection_add_selection", "atspi_selection_select_child"),
   ("atk_selection_ref_selection", "atspi_selection_get_selected_child"),
   ("atk_selection_remove_selection", "atspi_selection_deselect_selected_child"),
   ("atk_selection_select_all_selection", "atspi_selection_select_all"),
   ("atk_value_set_value", "atspi_value_set_current_value"),
   ("atk_value_get_increment", "atspi_value_get_minimum_increment")]

/-- `AtkAtta.get_client_side_method` (atk_atta.py lines 371-427).
Methods are identified by their symbols; `clientSyms` is the symbol
list of the methods of the Atspi interface found by the GI repository
(`info.get_methods()`, in order), the result is the symbol of the
returned client-side method, None when no rule matches.  The rules in
source order: the exception table, `atk`→`atspi`, `_ref_`→`_get_`,
`_ref_at`→`_get_accessible_at` (both applied to the `atk`→`atspi`
candidate), underscore-insensitive comparison (returning the first
match), and — for server symbols containing both `_get_` and
`_count` — the unique client symbol containing `get_n_`. -/
def get_client_side_method (clientSyms : List String) (serverSym : String) :
    Option String :=
  let mapped := gcsMappings.lookup serverSym
  if (match mapped with
      | some m => clientSyms.contains m
      | Option.none => false) then
    mapped
  else
    let candidate := pyStrReplace serverSym "atk" "atspi"
    if clientSyms.contains candidate then some candidate
    else
      let replaced := pyStrReplace candidate "_ref_" "_get_"
      if clientSyms.contains replaced then some replaced
      else
        let replaced2 := pyStrReplace candidate "_ref_at" "_get_accessible_at"
        if clientSyms.contains replaced2 then some replaced2
        else
          let collapsed := pyStrReplace candidate "_" ""
          let collapsedSyms := clientSyms.map (fun x => pyStrReplace x "_" "")
          match collapsedSyms.indexOf? collapsed with
          | some index => clientSyms[index]?
          | Option.none =>
            if strContains serverSym "_get_" && strContains serverSym "_count" then
              let hits := clientSyms.filter (fun x => strContains x "get_n_")
              if hits.length = 1 then hits[0]? else Option.none
            else Option.none

/-- The three platform enumerations handled by `AtkAtta.string_to_value`
(atk_atta.py lines 561-575). -/
inductive AtspiEnumKind where
  | role
  | state
  | relation
  deriving DecidableEq

/-- A platform constant: one of `Atspi.Role`, `Atspi.StateType`,
`Atspi.RelationType`, given by its enumeration and its integer value. -/
structure AtspiEnumValue where
  kind : AtspiEnumKind
  idx : Nat
  deriving DecidableEq

/-- The data the AT-SPI2 GObject-introspection library supplies about the
three enumerations: `valueName k i` is `value.value_name` of constant
`i` of enumeration `k`, and `lastDefined k` is the `LAST_DEFINED`
member. -/
structure AtspiEnumTables where
  valueName : AtspiEnumKind → Nat → String
  lastDefined : AtspiEnumKind → Nat

/-- The platform-constant branch of `AtkAtta.value_to_string` (atk_atta.py
lines 633-639): the value name with the "ATSPI_" prefix removed and, for
roles, "ROLE_STATUS_BAR" renamed to "ROLE_STATUSBAR". -/
def enum_value_to_string (T : AtspiEnumTables) (v : AtspiEnumValue) : String :=
  let valueName := pyStrReplace (T.valueName v.kind v.idx) "ATSPI_" ""
  if v.kind = .role then pyStrReplace valueName "ROLE_STATUS_BAR" "ROLE_STATUSBAR"
  else valueName

/-- The dictionary key of `values_maps` under which
`AtkAtta.string_to_value` files each enumeration. -/
def enumKindKey : AtspiEnumKind → String
  | .role => "ROLE"
  | .state => "STATE"
  | .relation => "RELATION"

/-- `AtkAtta.string_to_value` (atk_atta.py lines 561-575): the first
segment of the string (`string.split("_")[0]`) selects one of the maps
`RELATION`/`ROLE`/`STATE` (an unknown segment selects the empty map);
the constants of the selected enumeration are scanned in numeric order
`0 .. LAST_DEFINED - 1` and the first whose `value_to_string` equals the
string is returned, None when the scan fails. -/
def string_to_value (T : AtspiEnumTables) (s : String) : Option AtspiEnumValue :=
  let kind : Option AtspiEnumKind :=
    if firstSegment s = "RELATION" then some .relation
    else if firstSegment s = "ROLE" then some .role
    else if firstSegment s = "STATE" then some .state
    else Option.none
  match kind with
  | Option.none => Option.none
  | some k =>
    ((List.range (T.lastDefined k)).find?
      (fun i => enum_value_to_string T ⟨k, i⟩ == s)).map (fun i => ⟨k, i⟩)

/-- A small concrete instance of the enumeration data, following the
naming convention of the AT-SPI2 library (value names prefixed with
"ATSPI_" and the enumeration name), used to exercise
`string_to_value` on concrete constants. -/
def sampleTables : AtspiEnumTables where
  valueName := fun k i =>
    match k, i with
    | .role, 0 => "ATSPI_ROLE_INVALID"
    | .role, 1 => "ATSPI_ROLE_STATUS_BAR"
    | .state, 0 => "ATSPI_STATE_INVALID"
    | .state, 1 => "ATSPI_STATE_ACTIVE"
    | .relation, 0 => "ATSPI_RELATION_NULL"
    | _, _ => "ATSPI_UNKNOWN"
  lastDefined := fun k =>
    match k with
    | .role => 2
    | .state => 2
    | .relation => 1

/-- The mutable state of an `Atta` instance (atta_base.py `__init__`)
restricted to the fields the listening/event/test-run operations touch:
`_enabled`, `_ready` (only its truthiness is ever used), `_next_test`,
`_current_document` (a document id standing for the live accessible),
`_monitored_event_types`, `_event_history` and the `_listeners`
callback cache (its keys). -/
structure AttaState where
  enabled : Bool
  ready : Bool
  nextTest : Option String × String
  currentDocument : Option Nat
  monitoredEventTypes : List String
  eventHistory : List AtspiEvent
  listeners : List String

/-- The state after `Atta.__init__` on a platform where accessibility
came up (`self._enabled = True`). -/
def attaInit : AttaState :=
  { enabled := true
    ready := false
    nextTest := (Option.none, "")
    currentDocument := Option.none
    monitoredEventTypes := []
    eventHistory := []
    listeners := [] }

/-- A platform listener registration or deregistration performed through
`self._register_listener` / `self._deregister_listener`.  In atta_base.py
both are unimplemented stubs (they log and touch no state), so the
embedding records the calls as a trace. -/
inductive ListenerAction where
  | register (eventType : String)
  | deregister (eventType : String)
  deriving DecidableEq

/-- The loop body of `Atta.start_listen`: register a listener for the
event type and append it to `_monitored_event_types`. -/
def startListenStep (p : AttaState × List ListenerAction) (eventType : String) :
    AttaState × List ListenerAction :=
  ({ p.1 with monitoredEventTypes := p.1.monitoredEventTypes ++ [eventType] },
   p.2 ++ [.register eventType])

/-- `Atta.start_listen` (atta_base.py lines 174-183): first empty
`_monitored_event_types` and `_event_history`, then for each requested
type register a listener and append the type.  Returns the new state and
the trace of listener registrations. -/
def start_listen (s : AttaState) (eventTypes : List String) :
    AttaState × List ListenerAction :=
  let s0 := { s with monitoredEventTypes := [], eventHistory := [] }
  eventTypes.foldl startListenStep (s0, [])

/-- `Atta.stop_listen` (atta_base.py lines 242-250): deregister a
listener for each currently monitored type, then empty
`_monitored_event_types` and `_event_history`. -/
def stop_listen (s : AttaState) : AttaState × List ListenerAction :=
  let trace := s.monitoredEventTypes.foldl
    (fun acc eventType => acc ++ [ListenerAction.deregister eventType]) []
  ({ s with monitoredEventTypes := [], eventHistory := [] }, trace)

/-- `AtkAtta._on_test_event` (atk_atta.py lines 674-678, duplicated as
`AtkAtspiAtta._on_test_event` in atta-atk-atspi.py lines 1073-1082):
append the event to `_event_history` when its source is in the current
document.  The document-tree walk of `_in_current_document` queries live
AT-SPI2 objects, so its outcome is the parameter `inDoc`; the callback
itself only fires for event types a listener was registered for. -/
def on_test_event (s : AttaState) (ev : AtspiEvent) (inDoc : Bool) : AttaState :=
  if inDoc then { s with eventHistory := s.eventHistory ++ [ev] } else s

/-- `Atta.is_ready` (atta_base.py lines 144-164) as called from
`run_tests` (no document argument): returns at once when already ready;
otherwise requires a pending test and a current document, fetches the
document URI through the platform (`getUri`) and becomes ready exactly
when the URI is non-empty and equals the pending test's URI (the Python
`self._ready = uri and uri == test_uri`, read through its truthiness);
on success it re-stores the document it examined. -/
def is_ready (getUri : Nat → String) (s : AttaState) : Bool × AttaState :=
  if s.ready then (true, s)
  else
    match s.nextTest.1 with
    | Option.none => (false, s)
    | some _ =>
      match s.currentDocument with
      | Option.none => (false, s)
      | some document =>
        let uri := getUri document
        let ready := uri != "" && uri == s.nextTest.2
        if ready then (true, { s with ready := true, currentDocument := some document })
        else (false, { s with ready := false })

/-- The response dict of `run_tests`. -/
structure RunResponse where
  status : String
  message : String
  results : List RunResult
  deriving DecidableEq

/-- `Atta.run_tests` (atta_base.py lines 214-240): not enabled and
(stateful) not-ready checks, then the actual run — assertion
preparation, element lookup and per-assertion evaluation against the
live tree — abstracted as `proceed` on the state left by `is_ready`. -/
def base_run_tests (getUri : Nat → String)
    (proceed : AttaState → RunResponse × AttaState) (s : AttaState) :
    RunResponse × AttaState :=
  if !s.enabled then
    ({ status := "ERROR", message := "ATTA not enabled", results := [] }, s)
  else
    let r := is_ready getUri s
    if !r.1 then
      ({ status := "ERROR", message := "ATTA not ready", results := [] }, r.2)
    else
      proceed r.2

/-- `AtkAtspiAtta.run_tests` (atta-atk-atspi.py lines 819-856): the two
guards test the `_enabled` and `_ready` flags directly; the rest of the
method (platform assertion conversion, element search, evaluation) is
abstracted as `proceed`. -/
def atspi_run_tests (proceed : AttaState → RunResponse × AttaState) (s : AttaState) :
    RunResponse × AttaState :=
  if !s.enabled then
    ({ status := "ERROR", message := "ATTA not enabled", results := [] }, s)
  else if !s.ready then
    ({ status := "ERROR", message := "ATTA not ready", results := [] }, s)
  else
    proceed s

/-- The operations of claim C2 on an `Atta`: delivery of an
accessibility event to `_on_test_event`, `start_listen`, `stop_listen`
and `run_tests` (whose enabled-and-ready path does not touch the event
history, here `proceed` keeps the state). -/
inductive AttaOp where
  | testEvent (ev : AtspiEvent) (inDoc : Bool)
  | startListen (eventTypes : List String)
  | stopListen
  | runTests

/-- One operation applied to the ATTA state. -/
def attaStep (getUri : Nat → String) (s : AttaState) : AttaOp → AttaState
  | .testEvent ev inDoc =>
    if s.monitoredEventTypes.contains ev.type then on_test_event s ev inDoc else s
  | .startListen eventTypes => (start_listen s eventTypes).1
  | .stopListen => (stop_listen s).1
  | .runTests => (base_run_tests getUri (fun st => ({ status := "OK", message := "", results := [] }, st)) s).2

/-- A sequence of operations applied to the ATTA state. -/
def attaRun (getUri : Nat → String) (s : AttaState) (ops : List AttaOp) : AttaState :=
  ops.foldl (attaStep getUri) s

/- ------------------------------------------------------------------ -/
/- Helper lemmas                                                      -/
/- ------------------------------------------------------------------ -/

theorem startListenStep_foldl (ts : List String) :
    ∀ (s : AttaState) (acc : List ListenerAction),
      ts.foldl startListenStep (s, acc) =
        ({ s with monitoredEventTypes := s.monitoredEventTypes ++ ts },
         acc ++ ts.map ListenerAction.register) := by
  induction ts with
  | nil => intro s acc; simp
  | cons t ts ih =>
    intro s acc
    simp only [List.foldl_cons, startListenStep, List.map_cons]
    rw [ih]
    simp [List.append_assoc]

theorem start_listen_eq (s : AttaState) (ts : List String) :
    start_listen s ts =
      ({ s with monitoredEventTypes := ts, eventHistory := [] },
       ts.map ListenerAction.register) := by
  unfold start_listen
  rw [startListenStep_foldl]
  simp

theorem deregister_foldl (ts : List String) :
    ∀ acc : List ListenerAction,
      ts.foldl (fun acc eventType => acc ++ [ListenerAction.deregister eventType]) acc =
        acc ++ ts.map ListenerAction.deregister := by
  induction ts with
  | nil => intro acc; simp
  | cons t ts ih => intro acc; simp only [List.foldl_cons, List.map_cons]; rw [ih]; simp

theorem stop_listen_eq (s : AttaState) :
    stop_listen s =
      ({ s with monitoredEventTypes := [], eventHistory := [] },
       s.monitoredEventTypes.map ListenerAction.deregister) := by
  unfold stop_listen
  rw [deregister_foldl]
  simp

/- ------------------------------------------------------------------ -/
/- Claims                                                             -/
/- ------------------------------------------------------------------ -/

/-- C9: `Atta.type_to_string` is total and classifies by exact runtime
type into exactly the five harness strings: "String" for str, "Boolean"
for bool, "Number" for int and float, "List" for tuple, list, set,
range and dict, and "Undefined" for every other value; a boolean is
"Boolean" and never "Number", and None is "Undefined". -/
theorem c9_type_to_string_classification :
    (∀ s, type_to_string (.str s) = "String") ∧
    (∀ b, type_to_string (.bool b) = "Boolean") ∧
    (∀ b, type_to_string (.bool b) ≠ "Number") ∧
    (∀ n, type_to_string (.int n) = "Number") ∧
    (∀ r, type_to_string (.float r) = "Number") ∧
    (∀ l, type_to_string (.tuple l) = "List") ∧
    (∀ l, type_to_string (.list l) = "List") ∧
    (∀ l, type_to_string (.set l) = "List") ∧
    (∀ lo hi, type_to_string (.range lo hi) = "List") ∧
    (∀ l, type_to_string (.dict l) = "List") ∧
    type_to_string PyVal.none = "Undefined" ∧
    (∀ attrs, type_to_string (.accessible attrs) = "Undefined") ∧
    (∀ t r, type_to_string (.obj t r) = "Undefined") ∧
    (∀ v, type_to_string v = "String" ∨ type_to_string v = "Boolean" ∨
      type_to_string v = "Number" ∨ type_to_string v = "List" ∨
      type_to_string v = "Undefined") := by
  refine ⟨fun _ => rfl, fun _ => rfl, fun b => by simp [type_to_string],
    fun _ => rfl, fun _ => rfl, fun _ => rfl, fun _ => rfl, fun _ => rfl,
    fun _ _ => rfl, fun _ => rfl, rfl, fun _ => rfl, fun _ _ => rfl, fun v => ?_⟩
  cases v <;> simp [type_to_string]

/-- C10: `Atta.start_listen` first empties the monitored-type list and
the event history, then registers a listener per requested type and
appends the type, so afterwards the monitored list is exactly the
requested list and the registration trace is one registration per
requested type in order; `Atta.stop_listen` deregisters exactly the
previously monitored types and empties both lists; neither operation
changes the next test, the ready flag, the current document, the
enabled flag or the listener cache. -/
theorem c10_listen_frame (s : AttaState) (ts : List String) :
    (start_listen s ts).1.monitoredEventTypes = ts ∧
    (start_listen s ts).1.eventHistory = [] ∧
    (start_listen s ts).2 = ts.map ListenerAction.register ∧
    (start_listen s ts).1.nextTest = s.nextTest ∧
    (start_listen s ts).1.ready = s.ready ∧
    (start_listen s ts).1.currentDocument = s.currentDocument ∧
    (start_listen s ts).1.enabled = s.enabled ∧
    (start_listen s ts).1.listeners = s.listeners ∧
    (stop_listen s).1.monitoredEventTypes = [] ∧
    (stop_listen s).1.eventHistory = [] ∧
    (stop_listen s).2 = s.monitoredEventTypes.map ListenerAction.deregister ∧
    (stop_listen s).1.nextTest = s.nextTest ∧
    (stop_listen s).1.ready = s.ready ∧
    (stop_listen s).1.currentDocument = s.currentDocument ∧
    (stop_listen s).1.enabled = s.enabled ∧
    (stop_listen s).1.listeners = s.listeners := by
  rw [start_listen_eq, stop_listen_eq]
  exact ⟨rfl, rfl, rfl, rfl, rfl, rfl, rfl, rfl, rfl, rfl, rfl, rfl, rfl, rfl, rfl, rfl⟩

theorem status_map_pass (o : Option Bool) :
    (o.map (fun r => if r then "PASS" else "FAIL") = some "PASS") ↔ o = some true := by
  cases o with
  | none => simp
  | some b => cases b <;> simp

/-- C1 counterexample: as stated the claim fails on the code.  With the
base canonicalizers, for `doesNotContain` the expected value "x" is not
contained in the canonical actual value "" (the comparison the claim
names holds), yet the status is FAIL; for `contains` the expected value
"" is contained in the canonical actual value "", yet the status is
FAIL (the code first requires the actual value to be truthy); and for
`exists` the retrieved value "hello" exists (it is not None), yet the
status is FAIL (the code compares the expected value for equality with
the canonical actual value instead of checking existence). -/
theorem c1_counterexample :
    atta_get_result value_to_string type_to_string "doesNotContain"
        (.str "x") (.str "") = some "FAIL" ∧
    pyIn (.str "x") (value_to_string (.str "")) = some false ∧
    atta_get_result value_to_string type_to_string "contains"
        (.str "") (.str "") = some "FAIL" ∧
    pyIn (.str "") (value_to_string (.str "")) = some true ∧
    atta_get_result value_to_string type_to_string "exists"
        (.str "true") (.str "hello") = some "FAIL" ∧
    pyBeq (.str "hello") PyVal.none = false := by
  refine ⟨by decide, by decide, by decide, by decide, by decide, by decide⟩

/-- C1 (amended): for every tokenized assertion evaluated by
`AttaAssertion._get_result` (over any atta canonicalizers `vts`, `tts`),
the expectation verb is applied with these comparison semantics and the
status is PASS exactly when the comparison holds: `is` and `isNot` by
equality and inequality of the expected value and the canonical actual
value; `contains` by the canonical actual value being truthy and
containing the expected value; `doesNotContain` by the canonical actual
value being truthy and not containing the expected value; `isAny` by
membership of the canonical actual value in the expected collection;
`isType` by equality of the expected value with the type-name string of
the retrieved value; `exists` by equality of the expected value with
the canonical actual value; and any other verb yields FAIL. -/
theorem c1_assertion_verbs (vts : PyVal → PyVal) (tts : PyVal → String)
    (e v : PyVal) :
    (atta_get_result vts tts "is" e v = some "PASS" ↔ pyEqB e (vts v) = true) ∧
    (atta_get_result vts tts "isNot" e v = some "PASS" ↔ pyEqB e (vts v) = false) ∧
    (atta_get_result vts tts "contains" e v = some "PASS" ↔
      pyTruthy (vts v) = true ∧ pyIn e (vts v) = some true) ∧
    (atta_get_result vts tts "doesNotContain" e v = some "PASS" ↔
      pyTruthy (vts v) = true ∧ pyIn e (vts v) = some false) ∧
    (atta_get_result vts tts "isAny" e v = some "PASS" ↔ pyIn (vts v) e = some true) ∧
    (atta_get_result vts tts "isType" e v = some "PASS" ↔
      pyEqB (.str (tts v)) e = true) ∧
    (atta_get_result vts tts "exists" e v = some "PASS" ↔ pyEqB e (vts v) = true) ∧
    (∀ verb, verb ∉ ["is", "isNot", "contains", "doesNotContain", "isAny",
        "isType", "exists"] →
      atta_get_result vts tts verb e v = some "FAIL") := by
  refine ⟨?_, ?_, ?_, ?_, ?_, ?_, ?_, ?_⟩
  · simp [atta_get_result, status_map_pass]
  · simp [atta_get_result, status_map_pass]
  · unfold atta_get_result
    cases h : pyTruthy (vts v) <;> simp [h, status_map_pass]
  · unfold atta_get_result
    cases h : pyTruthy (vts v) <;> simp [h, status_map_pass]
  · simp [atta_get_result, status_map_pass]
  · simp [atta_get_result, status_map_pass, pyEqB]
  · simp [atta_get_result, status_map_pass]
  · intro verb h
    simp only [List.mem_cons, List.not_mem_nil, or_false, not_or] at h
    obtain ⟨h1, h2, h3, h4, h5, h6, h7⟩ := h
    simp [atta_get_result, h1, h2, h3, h4, h5, h6, h7]

/-- C1 witness: the amended per-verb characterization applied at a
concrete assertion, discharging the unknown-verb hypothesis at the verb
"isLT". -/
theorem c1_assertion_verbs_witness :
    atta_get_result value_to_string type_to_string "isLT" (.str "3") (.str "5") =
      some "FAIL" ∧
    (atta_get_result value_to_string type_to_string "is" (.str "5") (.str "5") =
        some "PASS" ↔ pyEqB (.str "5") (value_to_string (.str "5")) = true) := by
  have h := c1_assertion_verbs value_to_string type_to_string (.str "3") (.str "5")
  have h2 := c1_assertion_verbs value_to_string type_to_string (.str "5") (.str "5")
  exact ⟨h.2.2.2.2.2.2.2 "isLT" (by decide), h2.1⟩

/-- C6 counterexample: the two near-duplicate evaluators do not assign
the same status on every assertion and retrieved value.  For the verb
`doesNotContain`, expected value "x" and retrieved value "" (the empty
string), `AttaAssertion._get_result` yields FAIL (the actual value is
falsy) while `Assertion._get_result` of atta-atk-atspi.py yields PASS
("x" not in ""). -/
theorem c6_counterexample :
    atspi_get_result "doesNotContain" (.str "x") (.str "") = some "PASS" ∧
    atta_get_result value_to_string type_to_string "doesNotContain"
        (.str "x") (.str "") ≠ some "PASS" := by
  refine ⟨by decide, by decide⟩

/-- C6 (amended): the two evaluators assign the same status whenever the
retrieved platform value is a non-empty string (on which the base
canonicalizer is the identity) and the verb is one of `is`, `isNot`,
`contains`, `doesNotContain`, `isAny`, `exists`; they can diverge on
`isType` (harness type names versus Python type names), on falsy actual
values (`doesNotContain`) and on non-string retrieved values (which only
`AttaAssertion._get_result` canonicalizes before comparing). -/
theorem c6_evaluators_agree (e : PyVal) (s : String) (hs : s ≠ "") (verb : String)
    (hv : verb = "is" ∨ verb = "isNot" ∨ verb = "contains" ∨
      verb = "doesNotContain" ∨ verb = "isAny" ∨ verb = "exists") :
    atta_get_result value_to_string type_to_string verb e (.str s) =
      atspi_get_result verb e (.str s) := by
  have htruthy : (s != "") = true := by simpa using hs
  rcases hv with h | h | h | h | h | h <;> subst h
  · rfl
  · rfl
  · rfl
  · simp [atta_get_result, atspi_get_result, value_to_string, pyTruthy, htruthy,
      Option.map_map]
  · rfl
  · rfl

/-- C6 witness: the agreement theorem applied at the verb `is`, expected
value "a" and retrieved value "b". -/
theorem c6_evaluators_agree_witness :
    atta_get_result value_to_string type_to_string "is" (.str "a") (.str "b") =
      atspi_get_result "is" (.str "a") (.str "b") :=
  c6_evaluators_agree (.str "a") "b" (by decide) "is" (Or.inl rfl)

/-- C3: evaluation of the event-assertion code at concrete inputs.  When
the expectation specifies `type`, the status is PASS exactly when a
buffered event matches every specified attribute (detail1 compared after
integer conversion of the expected value) and unspecified attributes
constrain nothing — illustrated by the three evaluations with `type`
present.  But when the expectation does not specify `type`, the code
raises a NameError (`matches` is only initialized under the `type`
guard) instead of producing a status — the two `Option.none`
evaluations — contradicting the claim that unspecified attributes
constrain nothing. -/
theorem c3_event_matching_eval :
    event_assertion_get_result
        [(.str "type", .str "focus"), (.str "detail1", .str "1")]
        [⟨"focus", 1, 0, PyVal.none, 7⟩] = some "PASS" ∧
    event_assertion_get_result
        [(.str "type", .str "focus"), (.str "detail1", .str "2")]
        [⟨"focus", 1, 0, PyVal.none, 7⟩] = some "FAIL" ∧
    event_assertion_get_result [(.str "type", .str "focus")]
        [⟨"focus", 1, 5, PyVal.str "x", 7⟩] = some "PASS" ∧
    event_assertion_get_result [(.str "detail1", .str "1")]
        [⟨"focus", 1, 0, PyVal.none, 7⟩] = Option.none ∧
    event_assertion_get_result []
        [⟨"focus", 1, 0, PyVal.none, 7⟩] = Option.none := by
  refine ⟨by decide, by decide, by decide, by decide, by decide⟩

/-- C5: the test-class token of the four-token assertion selects the
resolver — "property" the property-lookup resolver, "event" the
event-matching resolver, "relation" the relation-lookup resolver,
"result" the native-method-invocation resolver, "TBD" the dump-info
handler — and running an assertion whose test-class token is none of
these yields a FAIL result whose message states the assertion is not
valid, with no resolver constructed or consulted (the result is the
same whatever the resolvers would do). -/
theorem c5_test_class_dispatch :
    get_test_class "property" = some TestClass.property ∧
    get_test_class "event" = some TestClass.event ∧
    get_test_class "relation" = some TestClass.relation ∧
    get_test_class "result" = some TestClass.result ∧
    get_test_class "TBD" = some TestClass.tbd ∧
    (∀ a : Assertion4,
      a.testClass ∉ ["property", "event", "relation", "result", "TBD"] →
      ∀ ev1 ev2 : TestClass → Assertion4 → RunResult,
        atspi_run_test false ev1 a =
          { result := "FAIL",
            message := "ERROR: " ++ pyRepr (assertionPyVal a) ++
              " is not a valid assertion",
            log := "ERROR: " ++ pyRepr (assertionPyVal a) ++
              " is not a valid assertion" } ∧
        atspi_run_test false ev1 a = atspi_run_test false ev2 a) := by
  refine ⟨rfl, rfl, rfl, rfl, rfl, ?_⟩
  intro a h ev1 ev2
  simp only [List.mem_cons, List.not_mem_nil, or_false, not_or] at h
  obtain ⟨h1, h2, h3, h4, h5⟩ := h
  have hnone : get_test_class a.testClass = Option.none := by
    simp [get_test_class, h1, h2, h3, h4, h5]
  constructor
  · simp [atspi_run_test, hnone]
  · simp [atspi_run_test, hnone]

/-- C5 witness: the dispatch theorem applied to the concrete invalid
assertion `["bogus", "target", "is", "y"]` and two different resolver
oracles. -/
theorem c5_test_class_dispatch_witness :
    atspi_run_test false (fun _ _ => ⟨"PASS", "", ""⟩)
        ⟨"bogus", "target", "is", .str "y"⟩ =
      { result := "FAIL",
        message := "ERROR: ['bogus', 'target', 'is', 'y'] is not a valid assertion",
        log := "ERROR: ['bogus', 'target', 'is', 'y'] is not a valid assertion" } ∧
    atspi_run_test false (fun _ _ => ⟨"PASS", "", ""⟩)
        ⟨"bogus", "target", "is", .str "y"⟩ =
      atspi_run_test false (fun _ _ => ⟨"FAIL", "", ""⟩)
        ⟨"bogus", "target", "is", .str "y"⟩ := by
  have h := (c5_test_class_dispatch.2.2.2.2.2
    ⟨"bogus", "target", "is", .str "y"⟩ (by decide)
    (fun _ _ => ⟨"PASS", "", ""⟩) (fun _ _ => ⟨"FAIL", "", ""⟩))
  refine ⟨?_, h.2⟩
  · rw [h.1]
    decide

theorem is_ready_false_state (getUri : Nat → String) (s : AttaState)
    (h : (is_ready getUri s).1 = false) : (is_ready getUri s).2 = s := by
  unfold is_ready at h ⊢
  by_cases hr : s.ready = true
  · simp [hr] at h
  · simp only [hr, if_false] at h ⊢
    cases hnt : s.nextTest.1 with
    | none => simp [hnt]
    | some name =>
      simp only [hnt] at h ⊢
      cases hcd : s.currentDocument with
      | none => simp [hcd]
      | some doc =>
        simp only [hcd] at h ⊢
        by_cases hu : (getUri doc != "" && getUri doc == s.nextTest.2) = true
        · simp [hu] at h
        · simp [hu]
          have hr2 : s.ready = false := by simpa using hr
          obtain ⟨en, rd, nt, cd, mo, hi, li⟩ := s
          simp_all

/-- C8: if `run_tests` is called while the ATTA is not enabled, or
enabled but not ready, it returns status "ERROR" with message
"ATTA not enabled" or "ATTA not ready" respectively and an empty
results list, no assertion is evaluated (the returned value does not
depend on `proceed`, the enabled-and-ready continuation), and the ATTA
state is unchanged — in both the atta_base.py variant (whose readiness
check is the stateful `is_ready`) and the atta-atk-atspi.py variant
(which tests the `_ready` flag directly). -/
theorem c8_run_tests_guards (getUri : Nat → String)
    (proceed : AttaState → RunResponse × AttaState) (s : AttaState) :
    (s.enabled = false →
      base_run_tests getUri proceed s =
        ({ status := "ERROR", message := "ATTA not enabled", results := [] }, s) ∧
      atspi_run_tests proceed s =
        ({ status := "ERROR", message := "ATTA not enabled", results := [] }, s)) ∧
    (s.enabled = true → (is_ready getUri s).1 = false →
      base_run_tests getUri proceed s =
        ({ status := "ERROR", message := "ATTA not ready", results := [] }, s)) ∧
    (s.enabled = true → s.ready = false →
      atspi_run_tests proceed s =
        ({ status := "ERROR", message := "ATTA not ready", results := [] }, s)) := by
  refine ⟨fun he => ⟨?_, ?_⟩, fun he hr => ?_, fun he hr => ?_⟩
  · simp [base_run_tests, he]
  · simp [atspi_run_tests, he]
  · simp only [base_run_tests, he, Bool.not_true, Bool.false_eq_true, if_false, hr,
      Bool.not_false, if_true]
    rw [is_ready_false_state getUri s hr]
  · simp [atspi_run_tests, he, hr]

/-- C8 witness: the guard theorem applied to the initial state (enabled,
not ready: its readiness check fails because no test is pending) and to
the initial state with `_enabled` false. -/
theorem c8_run_tests_guards_witness :
    base_run_tests (fun _ => "") (fun st => (⟨"OK", "", []⟩, st))
        { attaInit with enabled := false } =
      ({ status := "ERROR", message := "ATTA not enabled", results := [] },
       { attaInit with enabled := false }) ∧
    base_run_tests (fun _ => "") (fun st => (⟨"OK", "", []⟩, st)) attaInit =
      ({ status := "ERROR", message := "ATTA not ready", results := [] }, attaInit) ∧
    atspi_run_tests (fun st => (⟨"OK", "", []⟩, st)) attaInit =
      ({ status := "ERROR", message := "ATTA not ready", results := [] }, attaInit) := by
  refine ⟨?_, ?_, ?_⟩
  · exact ((c8_run_tests_guards (fun _ => "") (fun st => (⟨"OK", "", []⟩, st))
      { attaInit with enabled := false }).1 rfl).1
  · exact (c8_run_tests_guards (fun _ => "") (fun st => (⟨"OK", "", []⟩, st))
      attaInit).2.1 rfl rfl
  · exact (c8_run_tests_guards (fun _ => "") (fun st => (⟨"OK", "", []⟩, st))
      attaInit).2.2 rfl rfl


theorem history_replicate_growth (getUri : Nat → String) (ev : AtspiEvent) :
    ∀ (k : Nat) (s : AttaState), s.monitoredEventTypes.contains ev.type = true →
      (attaRun getUri s
          (List.replicate k (AttaOp.testEvent ev true))).eventHistory.length =
        s.eventHistory.length + k := by
  intro k
  induction k with
  | zero => intro s _; rfl
  | succ k ih =>
    intro s h
    rw [List.replicate_succ]
    have hstep : attaStep getUri s (AttaOp.testEvent ev true) =
        { s with eventHistory := s.eventHistory ++ [ev] } := by
      show (if s.monitoredEventTypes.contains ev.type = true
          then on_test_event s ev true else s) =
        { s with eventHistory := s.eventHistory ++ [ev] }
      rw [if_pos h]
      rfl
    calc (attaRun getUri s
            (AttaOp.testEvent ev true ::
              List.replicate k (AttaOp.testEvent ev true))).eventHistory.length
        = (attaRun getUri (attaStep getUri s (AttaOp.testEvent ev true))
            (List.replicate k (AttaOp.testEvent ev true))).eventHistory.length := rfl
      _ = (attaStep getUri s (AttaOp.testEvent ev true)).eventHistory.length + k := by
          apply ih
          rw [hstep]
          exact h
      _ = s.eventHistory.length + (k + 1) := by
          rw [hstep]
          show (s.eventHistory ++ [ev]).length + k = s.eventHistory.length + (k + 1)
          simp only [List.length_append, List.length_cons, List.length_nil]
          omega

theorem is_ready_eventHistory (getUri : Nat → String) (s : AttaState) :
    (is_ready getUri s).2.eventHistory = s.eventHistory := by
  unfold is_ready
  by_cases hr : s.ready = true
  · simp [hr]
  · simp only [hr, if_false]
    cases hnt : s.nextTest.1 with
    | none => rfl
    | some name =>
      simp only [hnt]
      cases hcd : s.currentDocument with
      | none => rfl
      | some doc =>
        simp only [hcd]
        by_cases hu : (getUri doc != "" && getUri doc == s.nextTest.2) = true
        · simp [hu]
        · simp [hu]

/-- C2 counterexample: there is no fixed bound B on the length of the
event history across all sequences of received events and
listen/run_tests operations — after `start_listen(["ev"])` the receipt
of B+1 in-document events of the monitored type leaves B+1 events in
the history. -/
theorem c2_counterexample :
    ¬ ∃ B : Nat, ∀ ops : List AttaOp,
      (attaRun (fun _ => "") attaInit ops).eventHistory.length ≤ B := by
  rintro ⟨B, hB⟩
  have h := hB (AttaOp.startListen ["ev"] ::
    List.replicate (B + 1) (AttaOp.testEvent ⟨"ev", 0, 0, PyVal.none, 0⟩ true))
  have hgrow := history_replicate_growth (fun _ => "") ⟨"ev", 0, 0, PyVal.none, 0⟩
    (B + 1) (attaStep (fun _ => "") attaInit (AttaOp.startListen ["ev"])) (by rfl)
  have h2 : (attaRun (fun _ => "")
      (attaStep (fun _ => "") attaInit (AttaOp.startListen ["ev"]))
      (List.replicate (B + 1)
        (AttaOp.testEvent ⟨"ev", 0, 0, PyVal.none, 0⟩ true))).eventHistory.length ≤ B := h
  rw [hgrow] at h2
  have h0 : (attaStep (fun _ => "") attaInit
      (AttaOp.startListen ["ev"])).eventHistory.length = 0 := rfl
  rw [h0] at h2
  omega

/-- C2 (amended): the event history is not bounded by any fixed B
(for every B some operation sequence leaves more than B events); what
holds instead is that each operation appends at most one event: an
in-document event of a monitored type appends exactly itself,
start_listen and stop_listen empty the history, and run_tests leaves it
unchanged. -/
theorem c2_event_history (getUri : Nat → String) :
    (∀ (s : AttaState) (op : AttaOp), (attaStep getUri s op).eventHistory =
      match op with
      | .testEvent ev inDoc =>
        if s.monitoredEventTypes.contains ev.type && inDoc then
          s.eventHistory ++ [ev]
        else s.eventHistory
      | .startListen _ => []
      | .stopListen => []
      | .runTests => s.eventHistory) ∧
    (∀ (s : AttaState) (op : AttaOp),
      (attaStep getUri s op).eventHistory.length ≤ s.eventHistory.length + 1) ∧
    (∀ B : Nat, ∃ ops : List AttaOp,
      B < (attaRun getUri attaInit ops).eventHistory.length) := by
  have hchar : ∀ (s : AttaState) (op : AttaOp), (attaStep getUri s op).eventHistory =
      match op with
      | .testEvent ev inDoc =>
        if s.monitoredEventTypes.contains ev.type && inDoc then
          s.eventHistory ++ [ev]
        else s.eventHistory
      | .startListen _ => []
      | .stopListen => []
      | .runTests => s.eventHistory := by
    intro s op
    cases op with
    | testEvent ev inDoc =>
      by_cases hm : ev.type ∈ s.monitoredEventTypes
      · cases inDoc <;> simp [attaStep, on_test_event, hm]
      · cases inDoc <;> simp [attaStep, on_test_event, hm]
    | startListen ts => simp [attaStep, start_listen_eq]
    | stopListen => simp [attaStep, stop_listen_eq]
    | runTests =>
      simp only [attaStep, base_run_tests]
      by_cases he : s.enabled = true
      · simp only [he, Bool.not_true, Bool.false_eq_true, if_false]
        by_cases hr : (is_ready getUri s).1 = true
        · simp only [hr, Bool.not_true, Bool.false_eq_true, if_false]
          exact is_ready_eventHistory getUri s
        · simp only [Bool.not_eq_true] at hr
          simp only [hr, Bool.not_false, if_true]
          exact is_ready_eventHistory getUri s
      · simp only [Bool.not_eq_true] at he
        simp [he]
  refine ⟨hchar, fun s op => ?_, fun B => ?_⟩
  · rw [hchar s op]
    cases op with
    | testEvent ev inDoc =>
      by_cases hm : ev.type ∈ s.monitoredEventTypes <;> cases inDoc <;>
        simp [hm]
    | startListen ts => simp
    | stopListen => simp
    | runTests => simp
  · refine ⟨AttaOp.startListen ["ev"] ::
      List.replicate (B + 1) (AttaOp.testEvent ⟨"ev", 0, 0, PyVal.none, 0⟩ true), ?_⟩
    have hgrow := history_replicate_growth getUri ⟨"ev", 0, 0, PyVal.none, 0⟩
      (B + 1) (attaStep getUri attaInit (AttaOp.startListen ["ev"])) (by rfl)
    have h0 : (attaStep getUri attaInit
        (AttaOp.startListen ["ev"])).eventHistory.length = 0 := rfl
    calc B < B + 1 := by omega
      _ = (attaStep getUri attaInit
            (AttaOp.startListen ["ev"])).eventHistory.length + (B + 1) := by
          rw [h0]
          omega
      _ = (attaRun getUri (attaStep getUri attaInit (AttaOp.startListen ["ev"]))
            (List.replicate (B + 1)
              (AttaOp.testEvent ⟨"ev", 0, 0, PyVal.none, 0⟩ true))).eventHistory.length :=
          hgrow.symm
      _ = (attaRun getUri attaInit (AttaOp.startListen ["ev"] ::
            List.replicate (B + 1)
              (AttaOp.testEvent ⟨"ev", 0, 0, PyVal.none, 0⟩ true))).eventHistory.length := rfl

/-- C4: `AtkAtta.get_client_side_method` applies its symbol-name
transformation rules in a fixed order — the exception table, the
literal atk→atspi substitution, the `_ref_`→`_get_` substitution, the
`_ref_at`→`_get_accessible_at` substitution, underscore-insensitive
comparison (returning the first matching client symbol), and, for
server symbols containing both `_get_` and `_count`, a unique client
symbol containing `get_n_` — returning the first client-side method a
rule matches and None when no rule produces a match among the
interface's client-side methods. -/
theorem c4_get_client_side_method_rules (clientSyms : List String)
    (serverSym : String) :
    (∀ m, gcsMappings.lookup serverSym = some m → m ∈ clientSyms →
      get_client_side_method clientSyms serverSym = some m) ∧
    (∀ hTable : (∀ m, gcsMappings.lookup serverSym = some m → m ∉ clientSyms),
      (pyStrReplace serverSym "atk" "atspi" ∈ clientSyms →
        get_client_side_method clientSyms serverSym =
          some (pyStrReplace serverSym "atk" "atspi")) ∧
      (pyStrReplace serverSym "atk" "atspi" ∉ clientSyms →
        (pyStrReplace (pyStrReplace serverSym "atk" "atspi") "_ref_" "_get_" ∈ clientSyms →
          get_client_side_method clientSyms serverSym =
            some (pyStrReplace (pyStrReplace serverSym "atk" "atspi") "_ref_" "_get_")) ∧
        (pyStrReplace (pyStrReplace serverSym "atk" "atspi") "_ref_" "_get_" ∉ clientSyms →
          (pyStrReplace (pyStrReplace serverSym "atk" "atspi")
              "_ref_at" "_get_accessible_at" ∈ clientSyms →
            get_client_side_method clientSyms serverSym =
              some (pyStrReplace (pyStrReplace serverSym "atk" "atspi")
                "_ref_at" "_get_accessible_at")) ∧
          (pyStrReplace (pyStrReplace serverSym "atk" "atspi")
              "_ref_at" "_get_accessible_at" ∉ clientSyms →
            (∀ index, (clientSyms.map (fun x => pyStrReplace x "_" "")).indexOf?
                (pyStrReplace (pyStrReplace serverSym "atk" "atspi") "_" "") = some index →
              get_client_side_method clientSyms serverSym = clientSyms[index]?) ∧
            ((clientSyms.map (fun x => pyStrReplace x "_" "")).indexOf?
                (pyStrReplace (pyStrReplace serverSym "atk" "atspi") "_" "") = Option.none →
              ((strContains serverSym "_get_" && strContains serverSym "_count") = true →
                ((clientSyms.filter (fun x => strContains x "get_n_")).length = 1 →
                  get_client_side_method clientSyms serverSym =
                    (clientSyms.filter (fun x => strContains x "get_n_"))[0]?) ∧
                (¬(clientSyms.filter (fun x => strContains x "get_n_")).length = 1 →
                  get_client_side_method clientSyms serverSym = Option.none)) ∧
              ((strContains serverSym "_get_" && strContains serverSym "_count") = false →
                get_client_side_method clientSyms serverSym = Option.none)))))) := by
  constructor
  · intro m hM hc
    simp [get_client_side_method, hM, hc]
  · intro hTable
    have htab : (match gcsMappings.lookup serverSym with
        | some m => decide (m ∈ clientSyms)
        | Option.none => false) = false := by
      cases hM : gcsMappings.lookup serverSym with
      | none => rfl
      | some m => simpa using hTable m hM
    refine ⟨fun h1 => ?_, fun h1 => ⟨fun h2 => ?_, fun h2 => ⟨fun h3 => ?_,
      fun h3 => ⟨fun index hidx => ?_, fun hidx => ⟨fun hgc => ⟨fun hlen => ?_,
      fun hlen => ?_⟩, fun hgc => ?_⟩⟩⟩⟩⟩
    · simp [get_client_side_method, htab, h1]
    · simp [get_client_side_method, htab, h1, h2]
    · simp [get_client_side_method, htab, h1, h2, h3]
    · simp [get_client_side_method, htab, h1, h2, h3, hidx]
    · simp [get_client_side_method, htab, h1, h2, h3, hidx, hgc, hlen]
    · simp [get_client_side_method, htab, h1, h2, h3, hidx, hgc, hlen]
    · simp [get_client_side_method, htab, h1, h2, h3, hidx, hgc]

/-- C4 witness: the rule characterization applied to the server symbol
`atk_text_get_text` and the client symbol list
`["atspi_text_get_text"]`, where the atk→atspi substitution rule fires
(the exception table does not apply). -/
theorem c4_get_client_side_method_rules_witness :
    get_client_side_method ["atspi_text_get_text"] "atk_text_get_text" =
      some "atspi_text_get_text" := by
  have htab : ∀ m, gcsMappings.lookup "atk_text_get_text" = some m →
      m ∉ ["atspi_text_get_text"] := by
    intro m hm
    have h0 : gcsMappings.lookup "atk_text_get_text" = (Option.none : Option String) := by
      decide
    rw [h0] at hm
    exact Option.noConfusion hm
  have h := ((c4_get_client_side_method_rules ["atspi_text_get_text"]
    "atk_text_get_text").2 htab).1 (by decide)
  rw [h]
  decide

theorem find?_append_some {α : Type} (p : α → Bool) (l1 l2 : List α) (a : α)
    (h : l1.find? p = some a) : (l1 ++ l2).find? p = some a := by
  induction l1 with
  | nil => simp [List.find?] at h
  | cons x xs ih =>
    rw [List.cons_append]
    by_cases hx : p x = true
    · rw [List.find?_cons_of_pos _ hx] at h
      rw [List.find?_cons_of_pos _ hx]
      exact h
    · rw [List.find?_cons_of_neg _ (by simpa using hx)] at h
      rw [List.find?_cons_of_neg _ (by simpa using hx)]
      exact ih h

theorem find?_append_of_none {α : Type} (p : α → Bool) (l1 l2 : List α)
    (h : l1.find? p = Option.none) : (l1 ++ l2).find? p = l2.find? p := by
  induction l1 with
  | nil => rfl
  | cons x xs ih =>
    rw [List.cons_append]
    by_cases hx : p x = true
    · rw [List.find?_cons_of_pos _ hx] at h
      exact Option.noConfusion h
    · rw [List.find?_cons_of_neg _ (by simpa using hx)] at h
      rw [List.find?_cons_of_neg _ (by simpa using hx)]
      exact ih h

theorem find?_range_first (p : Nat → Bool) :
    ∀ (n i : Nat), i < n → p i = true → (∀ j, j < i → p j = false) →
      (List.range n).find? p = some i := by
  intro n
  induction n with
  | zero => intro i h; omega
  | succ n ih =>
    intro i hin hp hmin
    rw [List.range_succ]
    by_cases hi : i < n
    · exact find?_append_some p _ _ i (ih i hi hp hmin)
    · have hieq : i = n := by omega
      subst hieq
      have hnone : (List.range i).find? p = Option.none := by
        rw [List.find?_eq_none]
        intro j hj
        simp only [List.mem_range] at hj
        simp [hmin j hj]
      rw [find?_append_of_none p _ _ hnone]
      simp [List.find?, hp]

/-- C7: `AtkAtta.value_to_string` gives every platform constant its
value name with the "ATSPI_" prefix removed (and, for roles,
"ROLE_STATUS_BAR" renamed to "ROLE_STATUSBAR"), and
`AtkAtta.string_to_value` is a left inverse of this conversion: for
every supported constant `v` (its value below `LAST_DEFINED`, its
transformed name filed under its enumeration's key, and no
earlier constant of the enumeration sharing its string — the naming
discipline of the AT-SPI2 enumerations, supplied here as hypotheses on
the introspection tables `T`), `string_to_value` maps
`value_to_string v` back to `v`. -/
theorem c7_string_to_value_left_inverse (T : AtspiEnumTables) (v : AtspiEnumValue)
    (hlt : v.idx < T.lastDefined v.kind)
    (hseg : firstSegment (enum_value_to_string T v) = enumKindKey v.kind)
    (hmin : ∀ j, j < v.idx →
      enum_value_to_string T ⟨v.kind, j⟩ ≠ enum_value_to_string T v) :
    enum_value_to_string T v =
      (if v.kind = .role then
        pyStrReplace (pyStrReplace (T.valueName v.kind v.idx) "ATSPI_" "")
          "ROLE_STATUS_BAR" "ROLE_STATUSBAR"
      else pyStrReplace (T.valueName v.kind v.idx) "ATSPI_" "") ∧
    string_to_value T (enum_value_to_string T v) = some v := by
  obtain ⟨k, i⟩ := v
  refine ⟨rfl, ?_⟩
  have hfind : ∀ kk, i < T.lastDefined kk →
      (∀ j, j < i → enum_value_to_string T ⟨kk, j⟩ ≠ enum_value_to_string T ⟨kk, i⟩) →
      (List.range (T.lastDefined kk)).find?
        (fun j => enum_value_to_string T ⟨kk, j⟩ ==
          enum_value_to_string T ⟨kk, i⟩) = some i := by
    intro kk hkk hm
    apply find?_range_first _ _ _ hkk
    · simp
    · intro j hj
      exact beq_eq_false_iff_ne.mpr (hm j hj)
  cases k with
  | role =>
    unfold string_to_value
    rw [hseg]
    rw [if_neg (by simp [enumKindKey]), if_pos (by simp [enumKindKey])]
    show ((List.range (T.lastDefined AtspiEnumKind.role)).find?
        (fun j => enum_value_to_string T ⟨AtspiEnumKind.role, j⟩ ==
          enum_value_to_string T ⟨AtspiEnumKind.role, i⟩)).map
        (fun j => (⟨AtspiEnumKind.role, j⟩ : AtspiEnumValue)) =
      some ⟨AtspiEnumKind.role, i⟩
    rw [hfind AtspiEnumKind.role hlt hmin]
    rfl
  | state =>
    unfold string_to_value
    rw [hseg]
    rw [if_neg (by simp [enumKindKey]), if_neg (by simp [enumKindKey]),
      if_pos (by simp [enumKindKey])]
    show ((List.range (T.lastDefined AtspiEnumKind.state)).find?
        (fun j => enum_value_to_string T ⟨AtspiEnumKind.state, j⟩ ==
          enum_value_to_string T ⟨AtspiEnumKind.state, i⟩)).map
        (fun j => (⟨AtspiEnumKind.state, j⟩ : AtspiEnumValue)) =
      some ⟨AtspiEnumKind.state, i⟩
    rw [hfind AtspiEnumKind.state hlt hmin]
    rfl
  | relation =>
    unfold string_to_value
    rw [hseg]
    rw [if_pos (by simp [enumKindKey])]
    show ((List.range (T.lastDefined AtspiEnumKind.relation)).find?
        (fun j => enum_value_to_string T ⟨AtspiEnumKind.relation, j⟩ ==
          enum_value_to_string T ⟨AtspiEnumKind.relation, i⟩)).map
        (fun j => (⟨AtspiEnumKind.relation, j⟩ : AtspiEnumValue)) =
      some ⟨AtspiEnumKind.relation, i⟩
    rw [hfind AtspiEnumKind.relation hlt hmin]
    rfl

/-- C7 witness: the left-inverse theorem applied to the role constant
`ATSPI_ROLE_STATUS_BAR` of the sample tables, whose canonical string is
the renamed "ROLE_STATUSBAR". -/
theorem c7_string_to_value_left_inverse_witness :
    enum_value_to_string sampleTables ⟨AtspiEnumKind.role, 1⟩ = "ROLE_STATUSBAR" ∧
    string_to_value sampleTables "ROLE_STATUSBAR" =
      some ⟨AtspiEnumKind.role, 1⟩ := by
  have e : enum_value_to_string sampleTables ⟨AtspiEnumKind.role, 1⟩ =
      "ROLE_STATUSBAR" := by decide
  have h := c7_string_to_value_left_inverse sampleTables ⟨AtspiEnumKind.role, 1⟩
    (by decide) (by decide) (by decide)
  refine ⟨e, ?_⟩
  rw [← e]
  exact h.2
